import Mathlib

/-!
Verification of the Tender-Backend job lifecycle and batch-finalization engine.

Shallow embedding of the core Python modules:
  * workers/core/errors.py        (error taxonomy and classifier)
  * workers/core/retry.py         (backoff policy and retry gate)
  * workers/core/idempotency.py   (create-or-fetch guard, reprocess gate)
  * workers/database/operations.py (job-store operations used by the finalizer)
  * workers/processing/extractor.py (per-file processing task and merge law)
  * workers/queue_worker.py       (queue consumer retry step and batch finalizer)

Database reads are modelled by passing the values the store would return as
explicit inputs; database writes are modelled as returned record values.
External collaborators (parser, chunker, LLM extractor) are modelled as
oracles, following the system specification which treats them as external.
-/

namespace TenderBackend

/-- JSON-like values: the payloads produced by LLM extraction and merged by
`merge_extractions` (Python dicts preserve insertion order, so objects are
ordered association lists). -/
inductive JVal where
  | null : JVal
  | str : String → JVal
  | num : Int → JVal
  | bool : Bool → JVal
  | list : List JVal → JVal
  | obj : List (String × JVal) → JVal
deriving Repr

mutual

/-- Python structural equality `==` on JSON-like values. -/
def jbeq : JVal → JVal → Bool
  | .null, .null => true
  | .str a, .str b => a == b
  | .num a, .num b => a == b
  | .bool a, .bool b => a == b
  | .list xs, .list ys => jbeqList xs ys
  | .obj xs, .obj ys => jbeqObj xs ys
  | _, _ => false

def jbeqList : List JVal → List JVal → Bool
  | [], [] => true
  | x :: xs, y :: ys => jbeq x y && jbeqList xs ys
  | _, _ => false

def jbeqObj : List (String × JVal) → List (String × JVal) → Bool
  | [], [] => true
  | (k₁, v₁) :: xs, (k₂, v₂) :: ys => k₁ == k₂ && jbeq v₁ v₂ && jbeqObj xs ys
  | _, _ => false

end

/-- `d.get(k)`: first binding of `k` in an ordered association list. -/
def lookupA (fs : List (String × JVal)) (k : String) : Option JVal :=
  (fs.find? (fun p => p.1 == k)).map (fun p => p.2)

/-- `d[k] = v` on a Python dict: update in place if the key exists
(keeping its position), otherwise append at the end. -/
def setA (fs : List (String × JVal)) (k : String) (v : JVal) : List (String × JVal) :=
  match fs with
  | [] => [(k, v)]
  | (k', v') :: rest => if k' == k then (k', v) :: rest else (k', v') :: setA rest k v

/-- Python `x in (None, "", [])` — the emptiness test used by the merge law. -/
def isEmptyish (v : JVal) : Bool :=
  jbeq v .null || jbeq v (.str "") || jbeq v (.list [])

/-- One `(key, value)` step of the inner loop of `merge_extractions`
(extractor.py lines 21-33). -/
def mergeStep (merged : List (String × JVal)) (kv : String × JVal) : List (String × JVal) :=
  let (key, value) := kv
  match lookupA merged key with
  | none => setA merged key value
  | some cur =>
    match value, cur with
    | .list vs, .list cs =>
        setA merged key (.list (cs ++ vs.filter (fun item => !(cs.any (fun c => jbeq item c)))))
    | .obj vfs, .obj cfs =>
        let newCur := vfs.foldl
          (fun acc p =>
            if isEmptyish ((lookupA acc p.1).getD .null) then setA acc p.1 p.2 else acc)
          cfs
        setA merged key (.obj newCur)
    | _, _ => if isEmptyish cur then setA merged key value else merged

/-- `merge_extractions` (extractor.py lines 18-34): fold every chunk's
key-value pairs into one object. -/
def merge_extractions (chunksData : List (List (String × JVal))) : List (String × JVal) :=
  chunksData.foldl (fun merged chunk => chunk.foldl mergeStep merged) []

/-! ## Error taxonomy and classifier (workers/core/errors.py) -/

/-- The closed error taxonomy: the `error_type` class attributes of
`WorkerError` and its subclasses. -/
inductive EKind where
  | UNKNOWN | RETRYABLE | PERMANENT | TIMEOUT | RATE_LIMIT | PARSE_ERROR | LLM_ERROR
deriving DecidableEq, Repr

/-- The tag string declared by each typed domain-error class. -/
def kindStr : EKind → String
  | .UNKNOWN => "UNKNOWN"
  | .RETRYABLE => "RETRYABLE"
  | .PERMANENT => "PERMANENT"
  | .TIMEOUT => "TIMEOUT"
  | .RATE_LIMIT => "RATE_LIMIT"
  | .PARSE_ERROR => "PARSE_ERROR"
  | .LLM_ERROR => "LLM_ERROR"

/-- A Python exception value as the classifier and the retry gate see it:
`mro` is the list of class names the object is an instance of (its class and
all base classes, used by `isinstance`); `declaredType` is the `error_type`
attribute carried by the typed `WorkerError` hierarchy (`none` for untyped
exceptions); `message` is `str(error)`. -/
structure Exc where
  mro : List String
  declaredType : Option EKind
  message : String
deriving DecidableEq, Repr

/-- `needle.isPrefixOf hay` on character lists. -/
def leadsWith : List Char → List Char → Bool
  | [], _ => true
  | _ :: _, [] => false
  | a :: as, b :: bs => a == b && leadsWith as bs

/-- Substring occurrence on character lists. -/
def hasSub (needle : List Char) : List Char → Bool
  | [] => leadsWith needle []
  | c :: rest => leadsWith needle (c :: rest) || hasSub needle rest

/-- Python `needle in hay` on strings. -/
def strHas (hay needle : String) : Bool :=
  hasSub needle.toList hay.toList

/-- Python `s.lower()`. -/
def lowerStr (s : String) : String :=
  String.mk (s.toList.map Char.toLower)

/-- `classify_error` (errors.py lines 32-56): a typed failure reports its own
declared tag; an untyped failure is matched against message phrases in order,
first match wins. -/
def classify_error (e : Exc) : String :=
  match e.declaredType with
  | some k => kindStr k
  | none =>
    let m := lowerStr e.message
    if strHas m "rate limit" || strHas m "429" then "RATE_LIMIT"
    else if strHas m "timeout" || strHas m "timed out" then "TIMEOUT"
    else if strHas m "parse" || strHas m "decode" then "PARSE_ERROR"
    else if strHas m "openai" || strHas m "llm" then "LLM_ERROR"
    else if strHas m "permission" || strHas m "not found" then "PERMANENT"
    else if strHas m "connection" || strHas m "network" then "RETRYABLE"
    else "UNKNOWN"

/-! ## Backoff policy and retry gate (workers/core/retry.py) -/

/-- `RetryConfig` (retry.py lines 11-16). `retryableExceptions` holds the
class names of `retryable_exceptions` (default `(Exception,)`). -/
structure RetryConfig where
  maxAttempts : Nat := 3
  baseDelaySeconds : ℚ := 2
  maxDelaySeconds : ℚ := 60
  retryableExceptions : List String := ["Exception"]
deriving DecidableEq, Repr

/-- `calculate_backoff` (retry.py lines 19-22). `jitter` stands for the
sampled value of `random.uniform(0, base * 2^(max(attempt-1,0)))`; theorems
carry its bounds `0 ≤ jitter ≤ base * 2^(attempt-1)` as side conditions. -/
def calculate_backoff (attempt : Nat) (baseDelay maxDelay jitter : ℚ) : ℚ :=
  min (baseDelay * 2 ^ attempt + jitter) maxDelay

/-- Python `isinstance(e, classes)`: some class in `classes` appears in the
exception's method-resolution-order ancestry. -/
def isinstance_of (e : Exc) (classes : List String) : Bool :=
  classes.any (fun c => e.mro.contains c)

/-- `should_retry` (retry.py lines 25-28). -/
def should_retry (e : Exc) (attempt : Nat) (config : RetryConfig) : Bool :=
  if config.maxAttempts ≤ attempt then false
  else isinstance_of e config.retryableExceptions

/-! ## Per-file records (workers/database/models.py FileExtraction) -/

/-- `FileExtraction.status` values. `STATUS_PENDING = "pending"`,
`STATUS_PROCESSING = "processing"`, `STATUS_SUCCESS = "SUCCESS"`,
`STATUS_FAILED = "FAILED"`, `STATUS_SKIPPED = "SKIPPED"`. -/
inductive FStatus where
  | pending | processing | success | failed | skipped
deriving DecidableEq, Repr

/-- A `FileExtraction` row. Timestamps are epoch seconds (`Int`);
nullable columns are `Option`. -/
structure FileRec where
  docId : String
  runId : String
  filename : Option String
  filePath : Option String
  extractedJson : List (String × JVal)
  status : FStatus
  error : Option String
  errorType : Option String
  retryCount : Option Nat
  processingStartedAt : Option Int
  processingCompletedAt : Option Int
deriving Repr

/-! ## Idempotency guard (workers/core/idempotency.py) -/

/-- `session.query(FileExtraction).filter(doc_id == docId).one_or_none()`
against a store modelled as a list of rows. -/
def find_file (store : List FileRec) (docId : String) : Option FileRec :=
  store.find? (fun r => r.docId == docId)

/-- Number of rows with a given doc id. -/
def countDoc (docId : String) (store : List FileRec) : Nat :=
  (store.filter (fun r => r.docId == docId)).length

/-- Result of `ensure_idempotent_file`: the returned `(record, created)` pair
and the resulting store, or the re-raised database error. -/
inductive EnsureOutcome where
  | ok (rec : FileRec) (created : Bool) (store : List FileRec)
  | dbError
deriving Repr

/-- `ensure_idempotent_file` (idempotency.py lines 13-39; identical logic in
operations.get_or_create_file_extraction lines 157-174). `racer` models a row
committed by a concurrent transaction between our fetch and our insert: the
insert raises `IntegrityError` exactly when the racer's row carries the same
doc id (the uniqueness constraint on `doc_id`); the handler rolls back and
re-fetches. -/
def ensure_idempotent_file (store : List FileRec) (docId : String)
    (defaults : FileRec) (racer : Option FileRec) : EnsureOutcome :=
  match find_file store docId with
  | some existing => .ok existing false store
  | none =>
    let created := { defaults with docId := docId }
    match racer with
    | some c =>
      if c.docId == docId then
        match find_file (store ++ [c]) docId with
        | some existing => .ok existing false (store ++ [c])
        | none => .dbError
      else .ok created true (store ++ [c, created])
    | none => .ok created true (store ++ [created])

/-- `should_reprocess_file` (idempotency.py lines 42-71). `now` is the value
of `datetime.now(timezone.utc)` in epoch seconds. -/
def should_reprocess_file (f : FileRec) (maxRetryAttempts : Nat)
    (staleSeconds : Int := 1800) (now : Int := 0) : Bool :=
  if f.status = .success then false
  else if f.status = .failed ∧ f.errorType = some "PERMANENT" then false
  else if f.status = .failed ∧ f.retryCount.getD 0 < maxRetryAttempts then true
  else if f.status = .pending ∨ f.status = .processing then
    match f.processingStartedAt with
    | none => true
    | some t => decide (staleSeconds < now - t)
  else false

/-- Stated from the specification sentence (spec §4.3): false if status is
SUCCESS; false if status is FAILED with kind PERMANENT; true if status is
FAILED with retryCount < maxRetryAttempts; if status is pending or
processing, true when there is no recorded start time, else true only if
elapsed time since start exceeds staleSeconds; otherwise false. -/
def should_reprocess_spec (f : FileRec) (maxRetryAttempts : Nat)
    (staleSeconds : Int := 1800) (now : Int := 0) : Bool :=
  match f.status with
  | .success => false
  | .failed =>
    if f.errorType = some "PERMANENT" then false
    else decide (f.retryCount.getD 0 < maxRetryAttempts)
  | .pending | .processing =>
    match f.processingStartedAt with
    | none => true
    | some t => decide (now - t > staleSeconds)
  | .skipped => false

/-! ## File processing task (workers/processing/extractor.py) -/

/-- Python truthiness of a JSON-like value. -/
def jtruthy : JVal → Bool
  | .null => false
  | .str s => !(s == "")
  | .num n => !(n == 0)
  | .bool b => b
  | .list xs => !xs.isEmpty
  | .obj fs => !fs.isEmpty

/-- `result[key][nested] = v` when `result[key]` is an object (the only case
exercised by the pipeline, whose stage outputs are objects; a non-object
value here would raise in Python before this assignment). -/
def setObjField (result : List (String × JVal)) (key nested : String) (v : JVal) :
    List (String × JVal) :=
  match lookupA result key with
  | some (.obj fs) => setA result key (.obj (setA fs nested v))
  | _ => result

/-- `_merge_with_priority` (extractor.py lines 37-73): critical fields
override semantic fields. -/
def merge_with_priority (semanticData criticalData : List (String × JVal)) :
    List (String × JVal) :=
  let result := semanticData
  let result :=
    match lookupA criticalData "meta" with
    | some cm =>
      if jtruthy cm then
        let result := if (lookupA result "meta").isNone
          then setA result "meta" (.obj []) else result
        match cm with
        | .obj mfs =>
          let result := match lookupA mfs "tender_title" with
            | some tv => setObjField result "meta" "tender_title" tv
            | none => result
          match lookupA mfs "organization" with
          | some ov => setObjField result "meta" "organization" ov
          | none => result
        | _ => result
      else result
    | none => result
  match lookupA criticalData "timeline_milestones" with
  | some tm =>
    if jtruthy tm then
      let result := if (lookupA result "timeline_milestones").isNone
        then setA result "timeline_milestones" (.obj []) else result
      match tm with
      | .obj tfs =>
        match lookupA tfs "submission_deadline_de" with
        | some dv => setObjField result "timeline_milestones" "submission_deadline_de" dv
        | none => result
      | _ => result
    else result
  | none => result

/-- The external collaborators invoked inside `process_file`'s try block
(spec §6): storage download + `parse_file` as one parsing oracle,
`chunk_text`, `select_relevant_chunks` (an empty result stands for both `[]`
and `None`, which are equally falsy), and the two per-chunk LLM extractors.
Fallible collaborators return `Except Exc`. -/
structure Collab where
  parse : Except Exc String
  chunkText : String → List String
  selectChunks : List String → List String
  extractCritical : String → Except Exc (List (String × JVal))
  extractSemantic : String → Except Exc (List (String × JVal))

/-- The body of `process_file`'s try block (extractor.py lines 88-168):
either the final merged payload or the first exception raised. -/
def run_pipeline (rec : FileRec) (c : Collab) : Except Exc (List (String × JVal)) := do
  if rec.filePath.getD "" == "" then
    throw ⟨["ValueError", "Exception"], none, "file_path is missing for doc_id=" ++ rec.docId⟩
  let rawText ← c.parse
  let chunks := c.chunkText rawText
  if chunks.isEmpty then
    throw ⟨["ValueError", "Exception"], none, "No text extracted from file"⟩
  let selected := c.selectChunks chunks
  let chunksForLLM := if selected.isEmpty then chunks else selected
  let criticalResults ← chunksForLLM.mapM c.extractCritical
  let criticalMerged := merge_extractions criticalResults
  let semanticResults ← chunksForLLM.mapM c.extractSemantic
  let semanticMerged := merge_extractions semanticResults
  pure (merge_with_priority semanticMerged criticalMerged)

/-- `process_file` (extractor.py lines 77-177) for a doc id whose record
exists (`rec`): mark processing-start, run the pipeline, then persist either
success (status SUCCESS, merged payload, error fields cleared, completion
stamped — operations.mark_file_success lines 105-128) or failure (status
FAILED, message and classified kind, completion stamped —
operations.mark_file_failed). The function is total: no exception escapes. -/
def process_file (rec : FileRec) (c : Collab) (now : Int) : FileRec :=
  let rec1 := { rec with status := .processing, processingStartedAt := some now }
  match run_pipeline rec1 c with
  | .ok payload =>
    { rec1 with
        status := .success
        extractedJson := payload
        processingCompletedAt := some now
        error := none
        errorType := none }
  | .error e =>
    { rec1 with
        status := .failed
        processingCompletedAt := some now
        error := some e.message
        errorType := some (classify_error e) }

/-! ## Queue consumer retry step (workers/queue_worker.py main, lines 302-324) -/

/-- A `process_file` queue message (the fields this step reads and writes).
`retryDelayMs` is `none` when the key is absent (`job.get("retry_delay_ms",
2000)` then defaults to 2000). Times are rational epoch seconds. -/
structure JobMsg where
  jobId : String
  docId : String
  batchId : Option String
  attempt : Nat
  maxAttempts : Nat
  retryDelayMs : Option ℚ
  retryAt : Option ℚ
deriving DecidableEq, Repr

/-- The queue effect of the post-processing step: nothing, a member added to
the time-ordered delayed set (`zadd delayed {json(msg): score}`, score = due
epoch time), or the message pushed onto the dead-letter list. -/
inductive QueueAction where
  | noAction
  | scheduled (msg : JobMsg) (score : ℚ)
  | deadLettered (msg : JobMsg)
deriving DecidableEq, Repr

/-- `WorkerConfig` fields the queue step reads (workers/config.py). -/
structure WorkerConfig where
  maxRetryAttempts : Nat
  retryBaseDelaySeconds : ℚ
deriving DecidableEq, Repr

/-- The failure-handling fragment of `main` for a `process_file` message
(queue_worker.py lines 302-324) together with `_schedule_retry` (lines
181-187): after `process_file` returns, if the file ended FAILED, increment
its retry count; below the max, bump the message's attempt, compute
`delay = max(1.0, retry_delay_ms / 1000.0)` and zadd the message at score
`now + delay` (also written into its `retry_at`); at the max, rpush the
message unchanged onto the dead-letter list. Returns the updated file row
and the queue effect. -/
def process_file_retry_step (file : FileRec) (msg : JobMsg) (config : WorkerConfig)
    (now : ℚ) : FileRec × QueueAction :=
  if file.status = .failed then
    let retryCount := file.retryCount.getD 0 + 1
    let file' := { file with retryCount := some retryCount }
    if retryCount < config.maxRetryAttempts then
      let delay := max 1 ((msg.retryDelayMs.getD 2000) / 1000)
      let runAt := now + delay
      (file', .scheduled { msg with attempt := msg.attempt + 1, retryAt := some runAt } runAt)
    else
      (file', .deadLettered msg)
  else (file, .noAction)

/-! ## Run summaries (workers/database/operations.py lines 389-414) -/

/-- A `run_summaries` row (models.py RunSummary); `run_id` carries a
uniqueness constraint. -/
structure RunSummary where
  runId : String
  uiJson : List (String × JVal)
  summaryJson : List (String × JVal)
  status : String
  updatedAt : Option Int
deriving Repr

/-- Update the first matching row in place, keeping its position. -/
def updateFirst {α : Type} (p : α → Bool) (f : α → α) : List α → List α
  | [] => []
  | x :: xs => if p x then f x :: xs else x :: updateFirst p f xs

/-- Number of `run_summaries` rows with a given run id. -/
def countRun (runId : String) (store : List RunSummary) : Nat :=
  (store.filter (fun r => r.runId == runId)).length

/-- The in-place update applied to an existing `run_summaries` row by
`create_or_update_run_summary` (operations.py lines 408-413): overwrite
`ui_json`, overwrite `summary_json` only when one was passed, overwrite
`status` only when truthy, stamp `updated_at`. -/
def runSummaryUpdate (uiJson : List (String × JVal))
    (summaryJson : Option (List (String × JVal))) (status : Option String)
    (now : Int) (r : RunSummary) : RunSummary :=
  { r with
      uiJson := uiJson
      summaryJson := match summaryJson with
        | some sj => sj
        | none => r.summaryJson
      status := match status with
        | some st => if st == "" then r.status else st
        | none => r.status
      updatedAt := some now }

/-- `create_or_update_run_summary` (operations.py lines 389-414): upsert
keyed by run id — fetch by run id; absent → insert a fresh row (status only
set when truthy, otherwise the column default "pending"); present → update
that row in place and stamp `updated_at`. Returns the resulting store. -/
def create_or_update_run_summary (store : List RunSummary) (runId : String)
    (uiJson : List (String × JVal)) (summaryJson : Option (List (String × JVal)))
    (status : Option String) (now : Int) : List RunSummary :=
  match store.find? (fun r => r.runId == runId) with
  | none =>
    let newStatus := match status with
      | some st => if st == "" then "pending" else st
      | none => "pending"
    store ++ [⟨runId, uiJson, summaryJson.getD [], newStatus, none⟩]
  | some _ =>
    updateFirst (fun r => r.runId == runId)
      (runSummaryUpdate uiJson summaryJson status now) store

/-! ## Batch finalizer (workers/queue_worker.py _maybe_finalize_batch,
operations.py is_batch_already_processed) -/

/-- `ProcessingJob.status` values (models.py lines 25-31). -/
inductive JStatus where
  | pending | queued | extracting | processing | completed | completedWithErrors | failed
deriving DecidableEq, Repr

/-- A `processing_jobs` row (the fields the finalizer reads and writes). -/
structure Job where
  batchId : String
  runId : Option String
  totalFiles : Nat
  status : JStatus
  completedAt : Option Int
  updatedAt : Option Int
deriving DecidableEq, Repr

/-- One row of the `batch_status_summary` view, as returned by
`operations.get_batch_status_summary` (the non-null integer counts after the
`int(... or 0)` conversions). -/
structure Summary where
  totalFiles : Nat
  filesPending : Nat
  filesProcessing : Nat
  filesSuccess : Nat
  filesFailed : Nat
deriving DecidableEq, Repr

/-- Result of `operations.get_batch_statistics` (lines 177-238). -/
structure Stats where
  successFiles : Nat
  failedFiles : Nat
deriving DecidableEq, Repr

/-- Result of `operations.get_batch_state_counts` (lines 241-347). -/
structure Counts where
  totalFiles : Nat
  pendingFiles : Nat
  processingFiles : Nat
  successFiles : Nat
  failedFiles : Nat
  skippedFiles : Nat
deriving DecidableEq, Repr

/-- What the job store returns to `_maybe_finalize_batch` for one batch id:
the job row (if any), the optional precomputed summary view row, the
fallback aggregation results, and `get_pending_doc_ids`. -/
structure BatchEnv where
  job : Option Job
  summary : Option Summary
  stats : Stats
  counts : Counts
  pendingDocIds : List String
deriving Repr

/-- The observable effects of one `_maybe_finalize_batch` call: the job row
afterwards, whether `aggregate_batch` was invoked, and the doc ids re-queued
as fresh `process_file` messages. -/
structure FinalizeResult where
  job : Option Job
  aggregated : Bool
  requeuedDocIds : List String
deriving Repr

/-- `is_batch_already_processed` (operations.py lines 140-147): true exactly
for the statuses completed and completed_with_errors. -/
def is_batch_already_processed (job : Option Job) : Bool :=
  match job with
  | none => false
  | some j => j.status = .completed ∨ j.status = .completedWithErrors

/-- The fallback path of `_maybe_finalize_batch` (queue_worker.py lines
91-178), reached when the summary view is unavailable or its completion
predicate does not hold: recompute counts, backfill `total_files` when it is
zero, re-queue pending files stuck with nothing processing, and finalize
when every file is processed. -/
def fallback_finalize (env : BatchEnv) (job : Job) (now : Int) : FinalizeResult :=
  let counts := env.counts
  let totalFiles := if job.totalFiles ≠ 0 then job.totalFiles else counts.totalFiles
  let processed := counts.successFiles + counts.failedFiles + counts.skippedFiles
  let pending := counts.pendingFiles + counts.processingFiles
  let backfill := totalFiles = 0 ∧ counts.totalFiles > 0
  let job := if backfill then { job with totalFiles := counts.totalFiles } else job
  let totalFiles := if backfill then counts.totalFiles else totalFiles
  if totalFiles = 0 then ⟨some job, false, []⟩
  else if pending > 0 then
    ⟨some job, false, if counts.processingFiles = 0 then env.pendingDocIds else []⟩
  else if processed < totalFiles then ⟨some job, false, []⟩
  else
    ⟨some { job with
              status := if env.stats.failedFiles > 0 then .completedWithErrors else .completed
              completedAt := some now
              updatedAt := some now },
      true, []⟩

/-- `_maybe_finalize_batch` (queue_worker.py lines 26-178). Guard on
already-terminal batches; missing batch → no-op; prefer the summary view's
completion predicate `total > 0 ∧ pending == 0 ∧ processing == 0 ∧
success + failed ≥ total`, finalizing and aggregating when it holds,
otherwise fall through to the fallback path. -/
def maybe_finalize_batch (env : BatchEnv) (now : Int) : FinalizeResult :=
  if is_batch_already_processed env.job then ⟨env.job, false, []⟩
  else
    match env.job with
    | none => ⟨none, false, []⟩
    | some job =>
      match env.summary with
      | some s =>
        if s.totalFiles > 0 ∧ s.filesPending = 0 ∧ s.filesProcessing = 0 ∧
            s.filesSuccess + s.filesFailed ≥ s.totalFiles then
          ⟨some { job with
                    status := if s.filesFailed > 0 then .completedWithErrors else .completed
                    completedAt := some now
                    updatedAt := some now },
            true, []⟩
        else fallback_finalize env job now
      | none => fallback_finalize env job now

/-! ## Concrete fixtures used to instantiate the theorems below -/

/-- A file row that just failed its first attempt. -/
def cFile : FileRec :=
  ⟨"doc9", "run9", some "f.pdf", some "tenders/f.pdf", [], .failed,
    some "boom", some "UNKNOWN", some 0, none, none⟩

/-- The same file after one earlier retry. -/
def cDeadFile : FileRec := { cFile with retryCount := some 1 }

/-- A `process_file` message on its second attempt with a 2000 ms retry delay. -/
def cMsg : JobMsg := ⟨"job9", "doc9", some "batch9", 1, 3, some 2000, none⟩

/-- Worker configuration with `max_retry_attempts = 3`, base delay 2 s. -/
def cCfg : WorkerConfig := ⟨3, 2⟩

/-- Worker configuration with `max_retry_attempts = 2`, matching the spec's
dead-letter scenario. -/
def cCfg2 : WorkerConfig := ⟨2, 2⟩

/-- A freshly registered pending file row. -/
def wRec : FileRec :=
  ⟨"doc1", "run1", some "f.pdf", some "tenders/f.pdf", [], .pending,
    none, none, some 0, none, none⟩

/-- Collaborators for a fully successful pipeline run. -/
def wCollabOk : Collab :=
  ⟨.ok "text", fun _ => ["t"], fun _ => [], fun _ => .ok [], fun _ => .ok [("a", .str "v")]⟩

/-- Collaborators whose parser raises an untyped parse failure. -/
def wCollabBad : Collab :=
  ⟨.error ⟨["Exception"], none, "cannot parse pdf"⟩, fun _ => [], fun _ => [],
    fun _ => .ok [], fun _ => .ok []⟩

/-- Default column values passed to `ensure_idempotent_file`. -/
def wDefaults : FileRec :=
  ⟨"", "run1", some "f.pdf", some "tenders/f.pdf", [], .pending,
    none, none, some 0, none, none⟩

/-- The row a concurrent inserter committed for doc id "d". -/
def wRacer : FileRec := { wDefaults with docId := "d" }

/-- A batch still processing, with `total_files = 5`. -/
def wJob : Job := ⟨"batch1", some "run1", 5, .processing, none, none⟩

/-- The same batch already finalized as completed. -/
def wJobDone : Job := ⟨"batch1", some "run1", 5, .completed, some 10, some 10⟩

/-- The same batch in the terminal failed state. -/
def wJobFailed : Job := ⟨"batch1", some "run1", 5, .failed, none, none⟩

/-- Summary view: total 5, all resolved, 3 succeeded, 2 failed. -/
def wSummaryDone : Summary := ⟨5, 0, 0, 3, 2⟩

/-- Summary view: total 5, one file still pending. -/
def wSummaryPending : Summary := ⟨5, 1, 0, 3, 1⟩

/-- Fallback statistics consistent with `wSummaryDone`. -/
def wStats : Stats := ⟨3, 2⟩

/-- Fallback state counts consistent with `wSummaryDone`. -/
def wCountsDone : Counts := ⟨5, 0, 0, 3, 2, 0⟩

/-- Fallback state counts consistent with `wSummaryPending`. -/
def wCountsPending : Counts := ⟨5, 1, 0, 3, 1, 0⟩

/-- Store state for a completed batch awaiting finalization. -/
def wEnvDone : BatchEnv := ⟨some wJob, some wSummaryDone, wStats, wCountsDone, []⟩

/-- Store state for a batch with one pending file. -/
def wEnvPending : BatchEnv := ⟨some wJob, some wSummaryPending, wStats, wCountsPending, ["d1"]⟩

/-- Store state for a batch already finalized. -/
def wEnvAlready : BatchEnv := ⟨some wJobDone, some wSummaryDone, wStats, wCountsDone, []⟩

/-- Store state for a batch marked failed whose files all resolved. -/
def wEnvFailed : BatchEnv := ⟨some wJobFailed, some wSummaryDone, wStats, wCountsDone, []⟩

/-! ## Helper lemmas -/

lemma find_file_append_singleton (store : List FileRec) (docId : String) (c : FileRec)
    (h : find_file store docId = none) (hc : c.docId = docId) :
    find_file (store ++ [c]) docId = some c := by
  unfold find_file at h ⊢
  rw [List.find?_append, h]
  simp [List.find?, hc]

lemma countDoc_zero_of_find_none (store : List FileRec) (docId : String)
    (h : find_file store docId = none) : countDoc docId store = 0 := by
  unfold find_file at h
  rw [List.find?_eq_none] at h
  unfold countDoc
  rw [List.filter_eq_nil_iff.mpr h]
  rfl

lemma countRun_updateFirst (runId : String) (f : RunSummary → RunSummary)
    (hf : ∀ r, (f r).runId = r.runId) :
    ∀ store : List RunSummary,
      countRun runId (updateFirst (fun r => r.runId == runId) f store) = countRun runId store := by
  intro store
  induction store with
  | nil => rfl
  | cons x xs ih =>
    unfold updateFirst countRun
    by_cases hx : x.runId == runId
    · simp only [hx, if_true, List.filter]
      rw [show ((f x).runId == runId) = true by rw [hf x]; exact hx]
      simp only [hx]
      unfold countRun at ih
      simp [ih]
    · simp only [hx, if_false, List.filter, Bool.false_eq_true]
      unfold countRun at ih
      simp [hx, ih]

lemma upsert_count_one (store : List RunSummary) (runId : String)
    (uiJson : List (String × JVal)) (summaryJson : Option (List (String × JVal)))
    (status : Option String) (now : Int)
    (h : countRun runId store ≤ 1) :
    countRun runId (create_or_update_run_summary store runId uiJson summaryJson status now) = 1 := by
  unfold create_or_update_run_summary
  cases hf : store.find? (fun r => r.runId == runId) with
  | none =>
    have h0 : countRun runId store = 0 := by
      rw [List.find?_eq_none] at hf
      unfold countRun
      rw [List.filter_eq_nil_iff.mpr hf]
      rfl
    unfold countRun at h0 ⊢
    rw [List.filter_append]
    simp [h0]
  | some r =>
    have hmem : r ∈ store := List.mem_of_find?_eq_some hf
    have hp := List.find?_some hf
    have h1 : 1 ≤ countRun runId store := by
      unfold countRun
      have hmf : r ∈ store.filter (fun r => r.runId == runId) :=
        List.mem_filter.mpr ⟨hmem, hp⟩
      exact Nat.one_le_iff_ne_zero.mpr (by
        intro hz
        rw [List.length_eq_zero] at hz
        rw [hz] at hmf
        exact absurd hmf (List.not_mem_nil r))
    have heq : countRun runId store = 1 := le_antisymm h h1
    exact (countRun_updateFirst runId
      (runSummaryUpdate uiJson summaryJson status now) (fun r => rfl) store).trans heq

lemma finalize_via_summary (env : BatchEnv) (job : Job) (s : Summary) (now : Int)
    (hjob : env.job = some job)
    (hnc : job.status ≠ .completed) (hncwe : job.status ≠ .completedWithErrors)
    (hsum : env.summary = some s)
    (ht : s.totalFiles > 0) (hp : s.filesPending = 0) (hpr : s.filesProcessing = 0)
    (hsf : s.filesSuccess + s.filesFailed ≥ s.totalFiles) :
    maybe_finalize_batch env now =
      ⟨some { job with
                status := if s.filesFailed > 0 then .completedWithErrors else .completed
                completedAt := some now
                updatedAt := some now },
        true, []⟩ := by
  have hb : is_batch_already_processed env.job = false := by
    rw [hjob]
    simp [is_batch_already_processed, hnc, hncwe]
  unfold maybe_finalize_batch
  rw [hb, hjob, hsum]
  simp [ht, hp, hpr, hsf]

/-! ## Claim theorems -/

/-- C1: For every batch (existing and not already in a terminal completed
state) whose status counts satisfy `total > 0 ∧ pending == 0 ∧
processing == 0 ∧ success + failed ≥ total`, `maybe_finalize_batch`
transitions the batch status in one call — to completed_with_errors when
failed > 0 and to completed when failed == 0 — stamping completion and
update times; and for a batch with pending ≥ 1 it performs no status
change. -/
theorem finalize_predicate_correct :
    (∀ (env : BatchEnv) (job : Job) (s : Summary) (now : Int),
      env.job = some job →
      job.status ≠ .completed → job.status ≠ .completedWithErrors →
      env.summary = some s →
      s.totalFiles > 0 → s.filesPending = 0 → s.filesProcessing = 0 →
      s.filesSuccess + s.filesFailed ≥ s.totalFiles →
      maybe_finalize_batch env now =
        ⟨some { job with
                  status := if s.filesFailed > 0 then .completedWithErrors else .completed
                  completedAt := some now
                  updatedAt := some now },
          true, []⟩) ∧
    (∀ (env : BatchEnv) (job : Job) (s : Summary) (now : Int),
      env.job = some job → env.summary = some s →
      1 ≤ s.filesPending → 1 ≤ env.counts.pendingFiles →
      (maybe_finalize_batch env now).job.map Job.status = some job.status) := by
  constructor
  · intro env job s now hjob hnc hncwe hsum ht hp hpr hsf
    exact finalize_via_summary env job s now hjob hnc hncwe hsum ht hp hpr hsf
  · intro env job s now hjob hsum hsp hcp
    unfold maybe_finalize_batch
    by_cases hb : is_batch_already_processed env.job
    · rw [if_pos hb, hjob]
      rfl
    · rw [if_neg hb]
      simp only [hjob, hsum]
      have hcond : ¬ (s.totalFiles > 0 ∧ s.filesPending = 0 ∧ s.filesProcessing = 0 ∧
          s.filesSuccess + s.filesFailed ≥ s.totalFiles) := by
        rintro ⟨-, h0, -, -⟩
        omega
      rw [if_neg hcond]
      unfold fallback_finalize
      simp only []
      split_ifs <;> simp_all

/-- C1 witness: the spec's concrete scenarios — total=5, success=3, failed=2,
pending=0, processing=0 finalizes as completed_with_errors with timestamps
stamped; pending=1 leaves the status untouched. -/
theorem finalize_predicate_correct_witness :
    maybe_finalize_batch wEnvDone 50 =
      ⟨some { wJob with
                status := JStatus.completedWithErrors
                completedAt := some 50
                updatedAt := some 50 },
        true, []⟩ ∧
    (maybe_finalize_batch wEnvPending 50).job.map Job.status = some JStatus.processing :=
  ⟨finalize_predicate_correct.1 wEnvDone wJob wSummaryDone 50 rfl
      (by decide) (by decide) rfl (by decide) rfl rfl (by decide),
    finalize_predicate_correct.2 wEnvPending wJob wSummaryPending 50 rfl rfl
      (by decide) (by decide)⟩

/-- C2: `maybe_finalize_batch` is idempotent — on a batch already completed
or completed_with_errors it is a no-op (the job row is returned unchanged,
no aggregation call, nothing re-queued); and the run-summary write is an
upsert keyed by run id, so repeated finalization events leave exactly one
RunSummary row for that run id. -/
theorem finalize_idempotent :
    (∀ (env : BatchEnv) (job : Job) (now : Int),
      env.job = some job →
      (job.status = .completed ∨ job.status = .completedWithErrors) →
      maybe_finalize_batch env now = ⟨env.job, false, []⟩) ∧
    (∀ (store : List RunSummary) (runId : String)
      (ui₁ ui₂ : List (String × JVal))
      (sj₁ sj₂ : Option (List (String × JVal)))
      (st₁ st₂ : Option String) (now₁ now₂ : Int),
      countRun runId store ≤ 1 →
      countRun runId
        (create_or_update_run_summary
          (create_or_update_run_summary store runId ui₁ sj₁ st₁ now₁)
          runId ui₂ sj₂ st₂ now₂) = 1) := by
  constructor
  · intro env job now hjob hterm
    have hb : is_batch_already_processed env.job = true := by
      rw [hjob]
      simp [is_batch_already_processed, hterm]
    unfold maybe_finalize_batch
    rw [hb]
    simp
  · intro store runId ui₁ ui₂ sj₁ sj₂ st₁ st₂ now₁ now₂ h
    exact upsert_count_one _ runId ui₂ sj₂ st₂ now₂
      ((upsert_count_one store runId ui₁ sj₁ st₁ now₁ h).le)

/-- C2 witness: a finalized batch is left untouched, and upserting the same
run id twice into an empty store yields exactly one row. -/
theorem finalize_idempotent_witness :
    maybe_finalize_batch wEnvAlready 50 = ⟨some wJobDone, false, []⟩ ∧
    countRun "run1"
      (create_or_update_run_summary
        (create_or_update_run_summary [] "run1" [] none (some "completed") 10)
        "run1" [] none (some "completed") 11) = 1 :=
  ⟨finalize_idempotent.1 wEnvAlready wJobDone 50 rfl (Or.inl rfl),
    finalize_idempotent.2 [] "run1" [] [] none none
      (some "completed") (some "completed") 10 11 (by decide)⟩

/-- C10: the already-terminal guard recognizes only completed and
completed_with_errors — `is_batch_already_processed` returns false for a
batch in the terminal failed state, so `maybe_finalize_batch` does not
no-op and overwrites the failed status with completed or
completed_with_errors whenever the completion predicate holds. -/
theorem failed_status_not_guarded :
    (∀ j : Job, j.status = .failed → is_batch_already_processed (some j) = false) ∧
    (∀ (env : BatchEnv) (job : Job) (s : Summary) (now : Int),
      env.job = some job → job.status = .failed →
      env.summary = some s →
      s.totalFiles > 0 → s.filesPending = 0 → s.filesProcessing = 0 →
      s.filesSuccess + s.filesFailed ≥ s.totalFiles →
      (maybe_finalize_batch env now).job.map Job.status =
        some (if s.filesFailed > 0 then JStatus.completedWithErrors else JStatus.completed)) := by
  constructor
  · intro j hj
    simp [is_batch_already_processed, hj]
  · intro env job s now hjob hfail hsum ht hp hpr hsf
    rw [finalize_via_summary env job s now hjob (by rw [hfail]; exact fun h => nomatch h)
      (by rw [hfail]; exact fun h => nomatch h) hsum ht hp hpr hsf]
    rfl

/-- C10 witness: a failed batch whose summary satisfies the completion
predicate is not guarded and ends completed_with_errors. -/
theorem failed_status_not_guarded_witness :
    is_batch_already_processed (some wJobFailed) = false ∧
    (maybe_finalize_batch wEnvFailed 50).job.map Job.status =
      some JStatus.completedWithErrors :=
  ⟨failed_status_not_guarded.1 wJobFailed rfl,
    failed_status_not_guarded.2 wEnvFailed wJobFailed wSummaryDone 50 rfl rfl rfl
      (by decide) rfl rfl (by decide)⟩

/-- C3 counterexample: the queue loop does not compute the retry delay with
the §4.2 backoff policy. For a failed file on attempt 1 with
`retry_delay_ms = 2000` it schedules the retry 2 seconds out
(`max(1.0, 2000/1000)`), while the §4.2 formula `base * 2^attempt + jitter`
clamped to max — at its minimum, jitter = 0, with the configured base 2 and
cap 60 — yields 4 seconds; jitter is non-negative, so no admissible jitter
makes the policy delay equal 2. -/
theorem queue_retry_backoff_counterexample :
    (process_file_retry_step cFile cMsg cCfg 100).2 =
      .scheduled { cMsg with attempt := 2, retryAt := some 102 } 102 ∧
    calculate_backoff 1 2 60 0 = 4 ∧
    (102 : ℚ) - 100 ≠ calculate_backoff 1 2 60 0 := by
  have hmax : (100 : ℚ) + max 1 ((2000 : ℚ) / 1000) = 102 := by
    rw [max_def]
    norm_num
  refine ⟨?_, ?_, ?_⟩
  · unfold process_file_retry_step cFile cMsg cCfg
    norm_num [hmax]
  · unfold calculate_backoff
    rw [min_def]
    norm_num
  · unfold calculate_backoff
    rw [min_def]
    norm_num

/-- C3 amended: for every process_file message whose file ends FAILED, the
queue loop increments the file's retry count; if the incremented count is
still below the configured maximum it schedules the message, with
incremented attempt, into the time-ordered delayed set keyed by due time,
at the fixed delay `max(1.0, retry_delay_ms/1000)` taken from the message
(not the §4.2 exponential backoff); if the count has reached the maximum it
moves the message verbatim to the dead-letter destination and the file
remains FAILED with retryCount equal to the maximum. -/
theorem queue_retry_step_amended :
    ∀ (file : FileRec) (msg : JobMsg) (config : WorkerConfig) (now : ℚ),
      file.status = .failed →
      ((process_file_retry_step file msg config now).1.retryCount =
        some (file.retryCount.getD 0 + 1)) ∧
      ((process_file_retry_step file msg config now).1.status = .failed) ∧
      (file.retryCount.getD 0 + 1 < config.maxRetryAttempts →
        (process_file_retry_step file msg config now).2 =
          .scheduled
            { msg with
                attempt := msg.attempt + 1
                retryAt := some (now + max 1 ((msg.retryDelayMs.getD 2000) / 1000)) }
            (now + max 1 ((msg.retryDelayMs.getD 2000) / 1000))) ∧
      (config.maxRetryAttempts ≤ file.retryCount.getD 0 + 1 →
        (process_file_retry_step file msg config now).2 = .deadLettered msg) := by
  intro file msg config now hf
  unfold process_file_retry_step
  rw [if_pos hf]
  by_cases h : file.retryCount.getD 0 + 1 < config.maxRetryAttempts
  · exact ⟨by simp [h], by simp [h, hf], fun _ => by simp [h], fun hh => absurd h (by omega)⟩
  · exact ⟨by simp [h], by simp [h, hf], fun hh => absurd hh h, fun _ => by simp [h]⟩

/-- C3 witness: attempt below the max is re-scheduled with incremented
attempt and due time; with `maxRetryAttempts = 2` a file on its second
failure is dead-lettered verbatim and ends FAILED with retryCount = 2. -/
theorem queue_retry_step_amended_witness :
    ((process_file_retry_step cFile cMsg cCfg 100).1.retryCount = some 1) ∧
    ((process_file_retry_step cFile cMsg cCfg 100).2 =
      .scheduled
        { cMsg with
            attempt := cMsg.attempt + 1
            retryAt := some (100 + max 1 ((cMsg.retryDelayMs.getD 2000) / 1000)) }
        (100 + max 1 ((cMsg.retryDelayMs.getD 2000) / 1000))) ∧
    ((process_file_retry_step cDeadFile cMsg cCfg2 100).1.retryCount = some 2) ∧
    ((process_file_retry_step cDeadFile cMsg cCfg2 100).1.status = .failed) ∧
    ((process_file_retry_step cDeadFile cMsg cCfg2 100).2 = .deadLettered cMsg) :=
  ⟨(queue_retry_step_amended cFile cMsg cCfg 100 rfl).1,
    (queue_retry_step_amended cFile cMsg cCfg 100 rfl).2.2.1 (by decide),
    (queue_retry_step_amended cDeadFile cMsg cCfg2 100 rfl).1,
    (queue_retry_step_amended cDeadFile cMsg cCfg2 100 rfl).2.1,
    (queue_retry_step_amended cDeadFile cMsg cCfg2 100 rfl).2.2.2 (by decide)⟩

/-- C4: for every doc id whose FileExtraction record exists, `process_file`
never propagates a pipeline exception: when the parse/chunk/extract pipeline
fails, the failure is persisted as status FAILED with the message and the
classified kind and completion stamped; on success the record is set to
SUCCESS with the merged payload stored, the error and error-kind fields
cleared, and the completion time stamped. -/
theorem process_file_absorbs_errors :
    ∀ (rec : FileRec) (c : Collab) (now : Int),
      (∀ payload,
        run_pipeline { rec with status := .processing, processingStartedAt := some now } c =
          .ok payload →
        process_file rec c now =
          { rec with
              status := .success
              processingStartedAt := some now
              extractedJson := payload
              processingCompletedAt := some now
              error := none
              errorType := none }) ∧
      (∀ e,
        run_pipeline { rec with status := .processing, processingStartedAt := some now } c =
          .error e →
        process_file rec c now =
          { rec with
              status := .failed
              processingStartedAt := some now
              processingCompletedAt := some now
              error := some e.message
              errorType := some (classify_error e) }) := by
  intro rec c now
  constructor
  · intro payload hp
    simp only [process_file]
    rw [hp]
  · intro e he
    simp only [process_file]
    rw [he]

/-- C4 witness: a successful run stores the merged payload and clears the
error fields; a parser failure is absorbed as FAILED with the message and
the classified kind PARSE_ERROR. -/
theorem process_file_absorbs_errors_witness :
    process_file wRec wCollabOk 7 =
      { wRec with
          status := .success
          processingStartedAt := some 7
          extractedJson := [("a", JVal.str "v")]
          processingCompletedAt := some 7
          error := none
          errorType := none } ∧
    process_file wRec wCollabBad 7 =
      { wRec with
          status := .failed
          processingStartedAt := some 7
          processingCompletedAt := some 7
          error := some "cannot parse pdf"
          errorType := some "PARSE_ERROR" } :=
  ⟨(process_file_absorbs_errors wRec wCollabOk 7).1 [("a", JVal.str "v")] rfl,
    (process_file_absorbs_errors wRec wCollabBad 7).2
      ⟨["Exception"], none, "cannot parse pdf"⟩ rfl⟩

/-- C5: `should_reprocess_file` agrees with the specification's gate on every
file record, retry limit, staleness threshold and clock reading: false for
SUCCESS; false for FAILED with kind PERMANENT; true for FAILED below the
retry limit; for pending/processing, true without a recorded start time and
otherwise true exactly when the elapsed time exceeds staleSeconds; false in
every remaining case. -/
theorem should_reprocess_file_correct :
    ∀ (f : FileRec) (maxRetryAttempts : Nat) (staleSeconds now : Int),
      should_reprocess_file f maxRetryAttempts staleSeconds now =
        should_reprocess_spec f maxRetryAttempts staleSeconds now := by
  intro f m stale now
  obtain ⟨d, r, fn, fp, ej, st, er, et, rc, ps, pc⟩ := f
  cases st <;>
    simp only [should_reprocess_file, should_reprocess_spec] <;>
    split_ifs <;>
    first
      | rfl
      | simp_all

/-- C6: calling `ensure_idempotent_file` twice with the same doc id never
creates two records — the second call returns the original record with
created = false and the store still holds exactly one row for that doc id;
and an insert colliding with the doc-id uniqueness constraint (a concurrent
racer) is rolled back and resolved by re-fetching the racer's record, never
surfaced as an error. -/
theorem ensure_file_idempotent :
    ∀ (store : List FileRec) (docId : String) (d₁ d₂ : FileRec)
      (racer₂ : Option FileRec) (c : FileRec),
      find_file store docId = none →
      c.docId = docId →
      (ensure_idempotent_file store docId d₁ none =
        .ok { d₁ with docId := docId } true (store ++ [{ d₁ with docId := docId }])) ∧
      (ensure_idempotent_file (store ++ [{ d₁ with docId := docId }]) docId d₂ racer₂ =
        .ok { d₁ with docId := docId } false (store ++ [{ d₁ with docId := docId }])) ∧
      (countDoc docId (store ++ [{ d₁ with docId := docId }]) = 1) ∧
      (ensure_idempotent_file store docId d₁ (some c) = .ok c false (store ++ [c])) := by
  intro store docId d₁ d₂ racer₂ c hfind hc
  have hone : find_file (store ++ [{ d₁ with docId := docId }]) docId =
      some { d₁ with docId := docId } :=
    find_file_append_singleton store docId _ hfind rfl
  have hcc : find_file (store ++ [c]) docId = some c :=
    find_file_append_singleton store docId c hfind hc
  refine ⟨?_, ?_, ?_, ?_⟩
  · simp [ensure_idempotent_file, hfind]
  · simp [ensure_idempotent_file, hone]
  · have h0 : countDoc docId store = 0 := countDoc_zero_of_find_none store docId hfind
    unfold countDoc at h0 ⊢
    rw [List.filter_append]
    simp [h0]
  · simp [ensure_idempotent_file, hfind, hc, hcc]

/-- C6 witness: creating doc id "d" in an empty store, then calling again,
returns the original row with created = false and one row total; a
colliding insert resolves to the racer's row without an error. -/
theorem ensure_file_idempotent_witness :
    (ensure_idempotent_file [] "d" wDefaults none =
      .ok { wDefaults with docId := "d" } true [{ wDefaults with docId := "d" }]) ∧
    (ensure_idempotent_file [{ wDefaults with docId := "d" }] "d" wDefaults none =
      .ok { wDefaults with docId := "d" } false [{ wDefaults with docId := "d" }]) ∧
    (countDoc "d" [{ wDefaults with docId := "d" }] = 1) ∧
    (ensure_idempotent_file [] "d" wDefaults (some wRacer) = .ok wRacer false [wRacer]) :=
  ⟨(ensure_file_idempotent [] "d" wDefaults wDefaults none wRacer rfl rfl).1,
    (ensure_file_idempotent [] "d" wDefaults wDefaults none wRacer rfl rfl).2.1,
    (ensure_file_idempotent [] "d" wDefaults wDefaults none wRacer rfl rfl).2.2.1,
    (ensure_file_idempotent [] "d" wDefaults wDefaults none wRacer rfl rfl).2.2.2⟩

/-- C7: `classify_error` is total and deterministic — it always returns one
tag from the seven-element taxonomy; a typed failure returns its own
declared kind without text matching; and an untyped failure is matched
against the ordered rule chain rate-limit/429 → RATE_LIMIT, timeout →
TIMEOUT, parse/decode → PARSE_ERROR, provider/LLM → LLM_ERROR,
permission/not-found → PERMANENT, connection/network → RETRYABLE, else
UNKNOWN, first match winning. -/
theorem classify_error_total_ordered :
    (∀ e : Exc, classify_error e ∈
      ["UNKNOWN", "RETRYABLE", "PERMANENT", "TIMEOUT", "RATE_LIMIT", "PARSE_ERROR", "LLM_ERROR"]) ∧
    (∀ (mro : List String) (k : EKind) (m : String),
      classify_error ⟨mro, some k, m⟩ = kindStr k) ∧
    (∀ (mro : List String) (m : String),
      classify_error ⟨mro, none, m⟩ =
        (let msg := lowerStr m
         if strHas msg "rate limit" || strHas msg "429" then "RATE_LIMIT"
         else if strHas msg "timeout" || strHas msg "timed out" then "TIMEOUT"
         else if strHas msg "parse" || strHas msg "decode" then "PARSE_ERROR"
         else if strHas msg "openai" || strHas msg "llm" then "LLM_ERROR"
         else if strHas msg "permission" || strHas msg "not found" then "PERMANENT"
         else if strHas msg "connection" || strHas msg "network" then "RETRYABLE"
         else "UNKNOWN")) := by
  refine ⟨?_, ?_, ?_⟩
  · rintro ⟨mro, dt, m⟩
    cases dt with
    | none =>
      show classify_error _ ∈ _
      simp only [classify_error]
      repeat' split
      all_goals simp
    | some k => cases k <;> simp [classify_error, kindStr]
  · intro mro k m
    rfl
  · intro mro m
    rfl

/-- C8: `should_retry` returns false whenever attempt ≥ maxAttempts, and
otherwise returns true exactly when the error is an instance of one of the
configured retryable exception classes. -/
theorem should_retry_correct :
    ∀ (e : Exc) (attempt : Nat) (config : RetryConfig),
      should_retry e attempt config =
        (decide (attempt < config.maxAttempts) && isinstance_of e config.retryableExceptions) := by
  intro e attempt config
  by_cases h : config.maxAttempts ≤ attempt
  · have h2 : ¬ attempt < config.maxAttempts := Nat.not_lt.mpr h
    simp [should_retry, h, h2]
  · have h2 : attempt < config.maxAttempts := Nat.lt_of_not_le h
    simp [should_retry, h, h2]

/-- C9: the per-chunk merge follows the stated law on the specification's
example — lists merge by union with de-duplication preserving first-seen
order, and nested-map fields are filled only when the existing value is
missing or empty; determinism holds because `merge_extractions` is a pure
function of its input. -/
theorem merge_extractions_law :
    merge_extractions
      [[("a", .list [.str "x"]), ("b", .obj [("c", .null)])],
       [("a", .list [.str "x", .str "y"]), ("b", .obj [("c", .str "v")])]] =
      [("a", .list [.str "x", .str "y"]), ("b", .obj [("c", .str "v")])] := by
  rfl

end TenderBackend
